import Mathlib

/-!
Shallow embedding of `lib/gui/app/models/leds.ts` (balena Etcher LED
feedback module).

The module keeps a registry of per-drive RGB LEDs (`leds : Map<string, RGBLed>`),
classifies every registered drive path into category sets on each update, and
applies a static color or an animation to each category according to the
current lifecycle step.  We model:

  * colors and animation functions (`red`, `blinkGreen`, `breatheBlue`, ...);
  * `setLeds` as a pure update of a map `DrivePath → Option Indication`
    (an LED that was never set is `none`; unregistered paths are skipped);
  * `updateLeds` as the ordered list of `setLeds` applications it performs
    (`ledOps`), folded over an initial LED state (`applyOps`);
  * the category sets it computes (`pluggedSet`, `unpluggedSet0`,
    `selectedOkSet`, `selectedFailedSet` and their post-source-handling
    versions `unpluggedCat`, `pluggedCat`, `sourceCat`);
  * the state-snapshot adapter inside `init` (`deriveStep`, `failedDrives`,
    `getDrivesPaths`, ...).
-/

abbrev DrivePath := String

/-- A color is an RGB intensity triple.  The source's `Color` is a 3-tuple of
JS numbers in [0,1]; static colors in this file are exact rationals. -/
abbrev Color := ℚ × ℚ × ℚ

def red : Color := (1, 0, 0)

def green : Color := (0, 1, 0)

def blue : Color := (0, 0, 1)

def white : Color := (1, 1, 1)

def black : Color := (0, 0, 0)

/-- `breatheBlue(t) = [0, 0, (1 + sin(t / 1000)) / 2]` from the source.
`Math.sin` is modelled by `Real.sin`, so the sampled triple lives in `ℝ³`. -/
noncomputable def breatheBlue (t : ℝ) : ℝ × ℝ × ℝ :=
  ((0 : ℝ), (0 : ℝ), (1 + Real.sin (t / 1000)) / 2)

/-- `blinkGreen(t) = [0, Math.floor(t / 1000) % 2, 0]` from the source
(sampled at rational elapsed times, where `Math.floor` is `Int.floor`). -/
def blinkGreen (t : ℚ) : ℚ × ℚ × ℚ :=
  ((0 : ℚ), ((⌊t / 1000⌋ % 2 : ℤ) : ℚ), (0 : ℚ))

/-- `blinkPurple(t) = [intensity / 2, 0, intensity]` with
`intensity = Math.floor(t / 1000) % 2`, from the source. -/
def blinkPurple (t : ℚ) : ℚ × ℚ × ℚ :=
  (((⌊t / 1000⌋ % 2 : ℤ) : ℚ) / 2, (0 : ℚ), ((⌊t / 1000⌋ % 2 : ℤ) : ℚ))

/-- The three animation functions the module passes to the LED driver,
as named variants (each names its sampling function above). -/
inductive AnimKind where
  | breatheBlue
  | blinkGreen
  | blinkPurple
deriving DecidableEq, Repr

/-- What `setLeds` receives: either a static `Color` or an animation
function (`Color | AnimationFunction` in the source). -/
inductive Indication where
  | staticColor : Color → Indication
  | animation : AnimKind → Indication
deriving DecidableEq, Repr

/-- The lifecycle step argument of `updateLeds`:
`'main' | 'flashing' | 'verifying' | 'finish'`. -/
inductive Step where
  | main
  | flashing
  | verifying
  | finish
deriving DecidableEq, Repr

/-- The LED state: which indication each drive path's LED last received
(`none` when it was never set).  Only registered paths are ever `some`. -/
abbrev LedState := DrivePath → Option Indication

/-- `setLeds(drivesPaths, colorOrAnimation)`: for each path in the set, look
up the LED in the registry (`leds.get(path)`) and set it if present;
unregistered paths are skipped. -/
def setLeds (registry : Finset DrivePath) (drivesPaths : Finset DrivePath)
    (colorOrAnimation : Indication) (st : LedState) : LedState :=
  fun p =>
    if p ∈ drivesPaths ∧ p ∈ registry then some colorOrAnimation else st p

/-- `plugged` after "Remove selected devices from plugged set":
`new Set(availableDrives)` minus `new Set(selectedDrives)`. -/
def pluggedSet (availableDrives selectedDrives : List DrivePath) :
    Finset DrivePath :=
  availableDrives.toFinset \ selectedDrives.toFinset

/-- `unplugged` after "Remove plugged devices from unplugged set":
`new Set(leds.keys())` minus the already-reduced `plugged` set. -/
def unpluggedSet0 (registry : Finset DrivePath)
    (availableDrives selectedDrives : List DrivePath) : Finset DrivePath :=
  registry \ pluggedSet availableDrives selectedDrives

/-- `selectedOk` after "Remove failed devices from selected set":
`new Set(selectedDrives)` minus `new Set(failedDrives)`. -/
def selectedOkSet (selectedDrives failedDrives : List DrivePath) :
    Finset DrivePath :=
  selectedDrives.toFinset \ failedDrives.toFinset

/-- `selectedFailed = new Set(failedDrives)`. -/
def selectedFailedSet (failedDrives : List DrivePath) : Finset DrivePath :=
  failedDrives.toFinset

/-- The source category: the singleton `{sourceDrivePath}` when the "Handle
source slot" block fires (the path was found in `unplugged` or in `plugged`),
else empty. -/
def sourceCat (registry : Finset DrivePath) (sourceDrivePath : Option DrivePath)
    (availableDrives selectedDrives : List DrivePath) : Finset DrivePath :=
  match sourceDrivePath with
  | none => ∅
  | some s =>
    if s ∈ unpluggedSet0 registry availableDrives selectedDrives then {s}
    else if s ∈ pluggedSet availableDrives selectedDrives then {s}
    else ∅

/-- The `unplugged` set as it stands after the "Handle source slot" block
(`unplugged.delete(sourceDrivePath)` in the first branch). -/
def unpluggedCat (registry : Finset DrivePath) (sourceDrivePath : Option DrivePath)
    (availableDrives selectedDrives : List DrivePath) : Finset DrivePath :=
  match sourceDrivePath with
  | none => unpluggedSet0 registry availableDrives selectedDrives
  | some s =>
    if s ∈ unpluggedSet0 registry availableDrives selectedDrives then
      (unpluggedSet0 registry availableDrives selectedDrives).erase s
    else unpluggedSet0 registry availableDrives selectedDrives

/-- The `plugged` set as it stands after the "Handle source slot" block
(`plugged.delete(sourceDrivePath)` in the second branch). -/
def pluggedCat (registry : Finset DrivePath) (sourceDrivePath : Option DrivePath)
    (availableDrives selectedDrives : List DrivePath) : Finset DrivePath :=
  match sourceDrivePath with
  | none => pluggedSet availableDrives selectedDrives
  | some s =>
    if s ∈ unpluggedSet0 registry availableDrives selectedDrives then
      pluggedSet availableDrives selectedDrives
    else if s ∈ pluggedSet availableDrives selectedDrives then
      (pluggedSet availableDrives selectedDrives).erase s
    else pluggedSet availableDrives selectedDrives

/-- The `setLeds` call the "Handle source slot" block performs, if any:
`breatheBlue` when the source path was in `unplugged`, solid `blue` when it
was in `plugged`. -/
def sourceOps (registry : Finset DrivePath) (sourceDrivePath : Option DrivePath)
    (availableDrives selectedDrives : List DrivePath) :
    List (Finset DrivePath × Indication) :=
  match sourceDrivePath with
  | none => []
  | some s =>
    if s ∈ unpluggedSet0 registry availableDrives selectedDrives then
      [({s}, Indication.animation AnimKind.breatheBlue)]
    else if s ∈ pluggedSet availableDrives selectedDrives then
      [({s}, Indication.staticColor blue)]
    else []

/-- The ordered sequence of `setLeds` calls one `updateLeds` invocation
performs: the source-slot call (if any), then the four step-table calls in
source order (unplugged, plugged, selectedOk, selectedFailed). -/
def ledOps (registry : Finset DrivePath) (step : Step)
    (sourceDrivePath : Option DrivePath)
    (availableDrives selectedDrives failedDrives : List DrivePath) :
    List (Finset DrivePath × Indication) :=
  sourceOps registry sourceDrivePath availableDrives selectedDrives ++
    match step with
    | Step.main =>
      [(unpluggedCat registry sourceDrivePath availableDrives selectedDrives,
          Indication.staticColor black),
        (pluggedCat registry sourceDrivePath availableDrives selectedDrives,
          Indication.staticColor black),
        (selectedOkSet selectedDrives failedDrives, Indication.staticColor white),
        (selectedFailedSet failedDrives, Indication.staticColor white)]
    | Step.flashing =>
      [(unpluggedCat registry sourceDrivePath availableDrives selectedDrives,
          Indication.staticColor black),
        (pluggedCat registry sourceDrivePath availableDrives selectedDrives,
          Indication.staticColor black),
        (selectedOkSet selectedDrives failedDrives,
          Indication.animation AnimKind.blinkGreen),
        (selectedFailedSet failedDrives, Indication.staticColor red)]
    | Step.verifying =>
      [(unpluggedCat registry sourceDrivePath availableDrives selectedDrives,
          Indication.staticColor black),
        (pluggedCat registry sourceDrivePath availableDrives selectedDrives,
          Indication.staticColor black),
        (selectedOkSet selectedDrives failedDrives,
          Indication.animation AnimKind.blinkPurple),
        (selectedFailedSet failedDrives, Indication.staticColor red)]
    | Step.finish =>
      [(unpluggedCat registry sourceDrivePath availableDrives selectedDrives,
          Indication.staticColor black),
        (pluggedCat registry sourceDrivePath availableDrives selectedDrives,
          Indication.staticColor black),
        (selectedOkSet selectedDrives failedDrives, Indication.staticColor green),
        (selectedFailedSet failedDrives, Indication.staticColor red)]

/-- Apply a sequence of `setLeds` calls in order (later calls override
earlier ones on overlapping paths). -/
def applyOps (registry : Finset DrivePath) :
    List (Finset DrivePath × Indication) → LedState → LedState
  | [], st => st
  | op :: rest, st => applyOps registry rest (setLeds registry op.1 op.2 st)

/-- `updateLeds(step, sourceDrivePath, availableDrives, selectedDrives,
failedDrives)`, as the LED-state transformer it is: the composition of all
`setLeds` calls it performs, over the fixed registry `leds`. -/
def updateLeds (registry : Finset DrivePath) (step : Step)
    (sourceDrivePath : Option DrivePath)
    (availableDrives selectedDrives failedDrives : List DrivePath)
    (st : LedState) : LedState :=
  applyOps registry
    (ledOps registry step sourceDrivePath availableDrives selectedDrives
      failedDrives) st

/-! ### The state-change adapter inside `init` -/

/-- An element of `state.availableDrives`: `devicePath?: string` (optional)
and `device: string`. -/
structure DeviceFromState where
  devicePath : Option String
  device : String
deriving DecidableEq, Repr

/-- One entry of `flashResults.results.errors`: `{ device: string }`. -/
structure ErrorEntry where
  device : String
deriving DecidableEq, Repr

/-- The `results` field of the flash-results object, with its optional
`errors` list. -/
structure ResultsField where
  errors : Option (List ErrorEntry)
deriving DecidableEq, Repr

/-- The optional `flashResults` object of the state snapshot. -/
structure FlashResults where
  results : Option ResultsField
deriving DecidableEq, Repr

/-- `state.flashState`, of which the adapter reads the per-device flashing
progress count `flashing`. -/
structure FlashState where
  flashing : ℕ
deriving DecidableEq, Repr

/-- The fields of the state snapshot (`state.toJS()`) that the observe
callback reads. -/
structure AppState where
  isFlashing : Bool
  flashState : FlashState
  lastAverageFlashingSpeed : Option ℚ
  availableDrives : List DeviceFromState
  selectionDevices : List String
  flashResults : Option FlashResults
deriving DecidableEq, Repr

/-- The step derivation in the observe callback:
`s.isFlashing ? (s.flashState.flashing > 0 ? 'flashing' : 'verifying')
             : (s.lastAverageFlashingSpeed == null ? 'main' : 'finish')`. -/
def deriveStep (s : AppState) : Step :=
  if s.isFlashing then
    if s.flashState.flashing > 0 then Step.flashing else Step.verifying
  else
    if s.lastAverageFlashingSpeed = none then Step.main else Step.finish

/-- JS truthiness of `d.devicePath` (an optional string): `undefined` and
the empty string are falsy. -/
def hasDevicePath (d : DeviceFromState) : Bool :=
  match d.devicePath with
  | none => false
  | some p => p ≠ ""

/-- `availableDrives = s.availableDrives.filter(d => d.devicePath)`. -/
def filteredAvailable (s : AppState) : List DeviceFromState :=
  s.availableDrives.filter hasDevicePath

/-- `availableDrivesPaths = availableDrives.map(d => d.devicePath)` (every
element of the filtered list has a path, so `getD` never fires). -/
def availableDrivesPaths (s : AppState) : List DrivePath :=
  (filteredAvailable s).map (fun d => d.devicePath.getD "")

/-- `getDrivesPaths(drives)`: the devicePaths of the filtered available
devices whose `device` identifier appears in `drives`. -/
def getDrivesPaths (s : AppState) (drives : List String) : List DrivePath :=
  ((filteredAvailable s).filter (fun d => d.device ∈ drives)).map
    (fun d => d.devicePath.getD "")

/-- `failedDrives = s.flashResults?.results?.errors?.map(e => e.device) || []`:
any missing link in the optional chain yields the empty list. -/
def failedDrives (s : AppState) : List String :=
  match s.flashResults with
  | none => []
  | some fr =>
    match fr.results with
    | none => []
    | some r =>
      match r.errors with
      | none => []
      | some es => es.map ErrorEntry.device

/-- `selectedDrivesPaths = getDrivesPaths(s.selection.devices)`. -/
def selectedDrivesPaths (s : AppState) : List DrivePath :=
  getDrivesPaths s s.selectionDevices

/-- `failedDrivesPaths = getDrivesPaths(failedDrives)`. -/
def failedDrivesPaths (s : AppState) : List DrivePath :=
  getDrivesPaths s (failedDrives s)

/-! ### Helper machinery: the effect of an ordered sequence of `setLeds`
calls on one path -/

/-- Later-write-wins combination: the result of a later write, if present,
hides an earlier value. -/
def lastOr (x y : Option Indication) : Option Indication :=
  match x with
  | some i => some i
  | none => y

/-- The last indication a sequence of `setLeds` calls writes to path `p`
(`none` when no call touches a registered `p`). -/
def lastWrite (registry : Finset DrivePath)
    (ops : List (Finset DrivePath × Indication)) (p : DrivePath) :
    Option Indication :=
  ops.foldl
    (fun acc op => if p ∈ op.1 ∧ p ∈ registry then some op.2 else acc) none

theorem lastOr_assoc (x y z : Option Indication) :
    lastOr (lastOr x y) z = lastOr x (lastOr y z) := by
  cases x <;> rfl

theorem lastOr_absorb (x y : Option Indication) :
    lastOr x (lastOr x y) = lastOr x y := by
  cases x <;> rfl

theorem foldl_lastWrite_shift (registry : Finset DrivePath) (p : DrivePath) :
    ∀ (l : List (Finset DrivePath × Indication)) (a : Option Indication),
      l.foldl
          (fun acc op => if p ∈ op.1 ∧ p ∈ registry then some op.2 else acc) a
        = lastOr (lastWrite registry l p) a := by
  intro l
  induction l with
  | nil => intro a; rfl
  | cons op l ih =>
    intro a
    have hl : lastWrite registry (op :: l) p
        = lastOr (lastWrite registry l p)
            (if p ∈ op.1 ∧ p ∈ registry then some op.2 else none) := by
      show List.foldl _ (if p ∈ op.1 ∧ p ∈ registry then some op.2 else none) l
        = _
      rw [ih]
    rw [hl]
    show List.foldl _ (if p ∈ op.1 ∧ p ∈ registry then some op.2 else a) l = _
    rw [ih, lastOr_assoc]
    cases h : lastWrite registry l p with
    | some i => rfl
    | none =>
      show (if p ∈ op.1 ∧ p ∈ registry then some op.2 else a)
        = lastOr (if p ∈ op.1 ∧ p ∈ registry then some op.2 else none) a
      split_ifs <;> rfl

theorem applyOps_lastWrite (registry : Finset DrivePath) :
    ∀ (ops : List (Finset DrivePath × Indication)) (st : LedState)
      (p : DrivePath),
      applyOps registry ops st p = lastOr (lastWrite registry ops p) (st p) := by
  intro ops
  induction ops with
  | nil => intro st p; rfl
  | cons op ops ih =>
    intro st p
    have hl : lastWrite registry (op :: ops) p
        = lastOr (lastWrite registry ops p)
            (if p ∈ op.1 ∧ p ∈ registry then some op.2 else none) := by
      show List.foldl _ (if p ∈ op.1 ∧ p ∈ registry then some op.2 else none)
          ops = _
      rw [foldl_lastWrite_shift]
    show applyOps registry ops (setLeds registry op.1 op.2 st) p = _
    rw [ih, hl, lastOr_assoc]
    have hset : setLeds registry op.1 op.2 st p
        = lastOr (if p ∈ op.1 ∧ p ∈ registry then some op.2 else none)
            (st p) := by
      show (if p ∈ op.1 ∧ p ∈ registry then some op.2 else st p) = _
      split_ifs <;> rfl
    rw [hset]

theorem lastWrite_append (registry : Finset DrivePath)
    (l₁ l₂ : List (Finset DrivePath × Indication)) (p : DrivePath) :
    lastWrite registry (l₁ ++ l₂) p
      = lastOr (lastWrite registry l₂ p) (lastWrite registry l₁ p) := by
  show (l₁ ++ l₂).foldl _ none = _
  rw [List.foldl_append, foldl_lastWrite_shift]
  rfl

theorem lastWrite_not_registered (registry : Finset DrivePath)
    (ops : List (Finset DrivePath × Indication)) (p : DrivePath)
    (hp : p ∉ registry) : lastWrite registry ops p = none := by
  induction ops with
  | nil => rfl
  | cons op ops ih =>
    have hl : lastWrite registry (op :: ops) p
        = lastOr (lastWrite registry ops p)
            (if p ∈ op.1 ∧ p ∈ registry then some op.2 else none) := by
      show List.foldl _ (if p ∈ op.1 ∧ p ∈ registry then some op.2 else none)
          ops = _
      rw [foldl_lastWrite_shift]
    rw [hl, ih, if_neg (by exact fun h => hp h.2)]
    rfl

theorem lastWrite_four (registry : Finset DrivePath)
    (o₁ o₂ o₃ o₄ : Finset DrivePath × Indication) (p : DrivePath) :
    lastWrite registry [o₁, o₂, o₃, o₄] p
      = if p ∈ o₄.1 ∧ p ∈ registry then some o₄.2
        else if p ∈ o₃.1 ∧ p ∈ registry then some o₃.2
        else if p ∈ o₂.1 ∧ p ∈ registry then some o₂.2
        else if p ∈ o₁.1 ∧ p ∈ registry then some o₁.2
        else none := by
  rfl

/-- The step table's column for the `selectedOk` category. -/
def selectedOkIndication : Step → Indication
  | Step.main => Indication.staticColor white
  | Step.flashing => Indication.animation AnimKind.blinkGreen
  | Step.verifying => Indication.animation AnimKind.blinkPurple
  | Step.finish => Indication.staticColor green

/-- The step table's column for the `selectedFailed` category. -/
def selectedFailedIndication : Step → Indication
  | Step.main => Indication.staticColor white
  | Step.flashing => Indication.staticColor red
  | Step.verifying => Indication.staticColor red
  | Step.finish => Indication.staticColor red

theorem ledOps_tableShape (registry : Finset DrivePath) (step : Step)
    (sourceDrivePath : Option DrivePath)
    (availableDrives selectedDrives failedDrives : List DrivePath) :
    ledOps registry step sourceDrivePath availableDrives selectedDrives
        failedDrives
      = sourceOps registry sourceDrivePath availableDrives selectedDrives ++
        [(unpluggedCat registry sourceDrivePath availableDrives selectedDrives,
            Indication.staticColor black),
          (pluggedCat registry sourceDrivePath availableDrives selectedDrives,
            Indication.staticColor black),
          (selectedOkSet selectedDrives failedDrives,
            selectedOkIndication step),
          (selectedFailedSet failedDrives, selectedFailedIndication step)] := by
  cases step <;> rfl

/-- Pointwise behavior of one `updateLeds` call: the step table wins over the
source-slot write (it is applied later), inside the table a later category
wins over an earlier one, and a path touched by nothing keeps its state. -/
theorem updateLeds_point (registry : Finset DrivePath) (step : Step)
    (sourceDrivePath : Option DrivePath)
    (availableDrives selectedDrives failedDrives : List DrivePath)
    (st : LedState) (p : DrivePath) :
    updateLeds registry step sourceDrivePath availableDrives selectedDrives
        failedDrives st p
      = if p ∈ selectedFailedSet failedDrives ∧ p ∈ registry then
          some (selectedFailedIndication step)
        else if p ∈ selectedOkSet selectedDrives failedDrives ∧ p ∈ registry
          then some (selectedOkIndication step)
        else if p ∈ pluggedCat registry sourceDrivePath availableDrives
            selectedDrives ∧ p ∈ registry then
          some (Indication.staticColor black)
        else if p ∈ unpluggedCat registry sourceDrivePath availableDrives
            selectedDrives ∧ p ∈ registry then
          some (Indication.staticColor black)
        else
          lastOr
            (lastWrite registry
              (sourceOps registry sourceDrivePath availableDrives
                selectedDrives) p)
            (st p) := by
  show applyOps registry _ st p = _
  rw [applyOps_lastWrite, ledOps_tableShape, lastWrite_append, lastWrite_four]
  split_ifs <;> rfl

/-! ### Claims -/

/-- Claim C6: the three animation functions satisfy the stated sampling
equations for every elapsed time t: blink-green returns
`(0, floor(t/1000) mod 2, 0)`, so `(0,0,0)` at `t = 500` and `(0,1,0)` at
`t = 1500`; blink-purple returns `(intensity/2, 0, intensity)` with
`intensity = floor(t/1000) mod 2`; breathing-blue returns
`(0, 0, (1 + sin(t/1000))/2)`, so `(0,0,0.5)` at `t = 0`. -/
theorem animation_sampling :
    (∀ t : ℚ, blinkGreen t = (0, ((⌊t / 1000⌋ % 2 : ℤ) : ℚ), 0)) ∧
    (∀ t : ℚ, blinkPurple t
      = (((⌊t / 1000⌋ % 2 : ℤ) : ℚ) / 2, 0, ((⌊t / 1000⌋ % 2 : ℤ) : ℚ))) ∧
    (∀ t : ℝ, breatheBlue t = (0, 0, (1 + Real.sin (t / 1000)) / 2)) ∧
    blinkGreen 500 = (0, 0, 0) ∧
    blinkGreen 1500 = (0, 1, 0) ∧
    breatheBlue 0 = (0, 0, 1 / 2) := by
  refine ⟨fun t => rfl, fun t => rfl, fun t => rfl, ?_, ?_, ?_⟩
  · norm_num [blinkGreen]
  · norm_num [blinkGreen]
  · simp [breatheBlue]

/-- Claim C4: the adapter derives the lifecycle step as: `flashing` if the
flashing flag is set and the per-device flashing progress count is greater
than 0; `verifying` if the flag is set and the count is not greater than 0;
`finish` if the flag is not set and `lastAverageFlashingSpeed` is non-null;
and `main` otherwise. -/
theorem deriveStep_characterization (s : AppState) :
    (deriveStep s = Step.flashing
      ↔ s.isFlashing = true ∧ 0 < s.flashState.flashing) ∧
    (deriveStep s = Step.verifying
      ↔ s.isFlashing = true ∧ ¬0 < s.flashState.flashing) ∧
    (deriveStep s = Step.finish
      ↔ s.isFlashing = false ∧ s.lastAverageFlashingSpeed ≠ none) ∧
    (deriveStep s = Step.main
      ↔ s.isFlashing = false ∧ s.lastAverageFlashingSpeed = none) := by
  cases hf : s.isFlashing <;> simp only [deriveStep, hf] <;>
    split_ifs <;> simp_all

/-- Claim C7: a drive path with no registered LED channel is silently
skipped: `setLeds` leaves it untouched and a whole `updateLeds` call leaves
it untouched, for all inputs (and the model is total, so no error is
raised). -/
theorem unregistered_paths_skipped (registry paths : Finset DrivePath)
    (ind : Indication) (step : Step) (src : Option DrivePath)
    (avail sel failed : List DrivePath) (st : LedState) (p : DrivePath)
    (hp : p ∉ registry) :
    setLeds registry paths ind st p = st p ∧
    updateLeds registry step src avail sel failed st p = st p := by
  constructor
  · show (if p ∈ paths ∧ p ∈ registry then some ind else st p) = st p
    rw [if_neg (fun h => hp h.2)]
  · show applyOps registry _ st p = st p
    rw [applyOps_lastWrite, lastWrite_not_registered registry _ p hp]
    rfl

/-- Witness for C7 at a concrete unregistered path. -/
theorem unregistered_paths_skipped_witness :
    "x" ∉ ({"a"} : Finset DrivePath) ∧
    (setLeds {"a"} {"x"} (Indication.staticColor red) (fun _ => none) "x"
        = none ∧
      updateLeds {"a"} Step.main none ["x"] ["x"] ["x"] (fun _ => none) "x"
        = none) :=
  ⟨by decide,
    unregistered_paths_skipped {"a"} {"x"} (Indication.staticColor red)
      Step.main none ["x"] ["x"] ["x"] (fun _ => none) "x" (by decide)⟩

/-- Claim C9: `updateLeds` is deterministic (two calls with identical
arguments produce identical `setLeds` sequences and identical LED states)
and idempotent (re-running it on its own output changes nothing). -/
theorem updateLeds_deterministic_idempotent (registry : Finset DrivePath)
    (step : Step) (src : Option DrivePath)
    (avail sel failed : List DrivePath) (st : LedState) :
    (ledOps registry step src avail sel failed
        = ledOps registry step src avail sel failed ∧
      updateLeds registry step src avail sel failed st
        = updateLeds registry step src avail sel failed st) ∧
    updateLeds registry step src avail sel failed
        (updateLeds registry step src avail sel failed st)
      = updateLeds registry step src avail sel failed st := by
  refine ⟨⟨rfl, rfl⟩, ?_⟩
  funext p
  simp only [updateLeds]
  rw [applyOps_lastWrite, applyOps_lastWrite, lastOr_absorb]

/-- Claim C3: a drive path present in both `selectedDrives` and
`failedDrives` is classified `selectedFailed` and never `selectedOk`, and
with step `flashing` its LED (when registered) ends solid red, not
blink-green. -/
theorem failed_overrides_selected (registry : Finset DrivePath)
    (src : Option DrivePath) (avail sel failed : List DrivePath)
    (st : LedState) (d : DrivePath) (_hsel : d ∈ sel) (hfail : d ∈ failed) :
    d ∉ selectedOkSet sel failed ∧
    d ∈ selectedFailedSet failed ∧
    (d ∈ registry →
      updateLeds registry Step.flashing src avail sel failed st d
        = some (Indication.staticColor red)) := by
  have hf : d ∈ selectedFailedSet failed := by
    simpa [selectedFailedSet] using hfail
  have hok : d ∉ selectedOkSet sel failed := by
    simp [selectedOkSet, Finset.mem_sdiff, List.mem_toFinset, hfail]
  refine ⟨hok, hf, fun hreg => ?_⟩
  rw [updateLeds_point, if_pos ⟨hf, hreg⟩]
  rfl

/-- Witness for C3: a concrete drive selected and failed, at step
`flashing`, ends solid red. -/
theorem failed_overrides_selected_witness :
    ("b" ∈ (["b"] : List DrivePath) ∧ "b" ∈ (["b"] : List DrivePath)) ∧
    ("b" ∉ selectedOkSet ["b"] ["b"] ∧
      "b" ∈ selectedFailedSet ["b"] ∧
      ("b" ∈ ({"b"} : Finset DrivePath) →
        updateLeds {"b"} Step.flashing none [] ["b"] ["b"] (fun _ => none) "b"
          = some (Indication.staticColor red))) :=
  ⟨⟨by decide, by decide⟩,
    failed_overrides_selected {"b"} none [] ["b"] ["b"] (fun _ => none) "b"
      (by decide) (by decide)⟩

/-- Claim C5: the indication applied to each residual category follows the
step table — unplugged/plugged drives get black at every step; selectedOk
drives get white at `main`, blink-green at `flashing`, blink-purple at
`verifying`, solid green at `finish`; selectedFailed drives get white at
`main` and solid red otherwise — and with step `main`, no source and empty
lists, every registered drive receives black. -/
theorem step_table_indications (registry : Finset DrivePath)
    (src : Option DrivePath) (avail sel failed : List DrivePath)
    (st : LedState) (d : DrivePath) (hreg : d ∈ registry) :
    (∀ step : Step,
      (d ∈ unpluggedCat registry src avail sel ∨
        d ∈ pluggedCat registry src avail sel) →
      d ∉ selectedOkSet sel failed → d ∉ selectedFailedSet failed →
      updateLeds registry step src avail sel failed st d
        = some (Indication.staticColor black)) ∧
    (d ∈ selectedOkSet sel failed →
      updateLeds registry Step.main src avail sel failed st d
          = some (Indication.staticColor white) ∧
      updateLeds registry Step.flashing src avail sel failed st d
          = some (Indication.animation AnimKind.blinkGreen) ∧
      updateLeds registry Step.verifying src avail sel failed st d
          = some (Indication.animation AnimKind.blinkPurple) ∧
      updateLeds registry Step.finish src avail sel failed st d
          = some (Indication.staticColor green)) ∧
    (d ∈ selectedFailedSet failed →
      updateLeds registry Step.main src avail sel failed st d
          = some (Indication.staticColor white) ∧
      updateLeds registry Step.flashing src avail sel failed st d
          = some (Indication.staticColor red) ∧
      updateLeds registry Step.verifying src avail sel failed st d
          = some (Indication.staticColor red) ∧
      updateLeds registry Step.finish src avail sel failed st d
          = some (Indication.staticColor red)) ∧
    updateLeds registry Step.main none [] [] [] st d
      = some (Indication.staticColor black) := by
  refine ⟨?_, ?_, ?_, ?_⟩
  · intro step hup hok hfail
    rw [updateLeds_point, if_neg (fun h => hfail h.1),
      if_neg (fun h => hok h.1)]
    by_cases hpl : d ∈ pluggedCat registry src avail sel
    · rw [if_pos ⟨hpl, hreg⟩]
    · rw [if_neg (fun h => hpl h.1), if_pos ⟨hup.resolve_right hpl, hreg⟩]
  · intro hok
    have hnf : d ∉ selectedFailedSet failed := by
      simp only [selectedOkSet, Finset.mem_sdiff] at hok
      simpa [selectedFailedSet] using hok.2
    refine ⟨?_, ?_, ?_, ?_⟩ <;>
      · rw [updateLeds_point, if_neg (fun h => hnf h.1), if_pos ⟨hok, hreg⟩]
        rfl
  · intro hfail
    refine ⟨?_, ?_, ?_, ?_⟩ <;>
      · rw [updateLeds_point, if_pos ⟨hfail, hreg⟩]
        rfl
  · have h1 : d ∉ selectedFailedSet ([] : List DrivePath) := by
      simp [selectedFailedSet]
    have h2 : d ∉ selectedOkSet [] [] := by
      simp [selectedOkSet]
    have h3 : d ∉ pluggedCat registry none [] [] := by
      simp [pluggedCat, pluggedSet]
    have h4 : d ∈ unpluggedCat registry none [] [] := by
      simp [unpluggedCat, unpluggedSet0, pluggedSet, hreg]
    rw [updateLeds_point, if_neg (fun h => h1 h.1), if_neg (fun h => h2 h.1),
      if_neg (fun h => h3 h.1), if_pos ⟨h4, hreg⟩]

/-- Witness for C5: with step `main`, no source and empty lists, a concrete
registered drive receives black. -/
theorem step_table_indications_witness :
    "a" ∈ ({"a"} : Finset DrivePath) ∧
    updateLeds {"a"} Step.main none [] [] [] (fun _ => none) "a"
      = some (Indication.staticColor black) :=
  ⟨by decide,
    (step_table_indications {"a"} none [] [] [] (fun _ => none) "a"
      (by decide)).2.2.2⟩

/-- Counterexample to C2 as stated: a source path that also appears in
`selectedDrives` IS classified into the `selectedOk` category, and the step
table (here `main` → white) overrides its source indication instead of the
other way around. -/
theorem source_overridden_by_selected_cex :
    "s" ∈ ({"s"} : Finset DrivePath) ∧
    "s" ∈ selectedOkSet ["s"] [] ∧
    updateLeds {"s"} Step.main (some "s") [] ["s"] [] (fun _ => none) "s"
      = some (Indication.staticColor white) := by decide

/-- Claim C2 (amended): provided the source path is registered and appears
in neither `selectedDrives` nor `failedDrives`, it is never classified into
the unplugged, plugged, selectedOk or selectedFailed category — even if it
appears in `availableDrives` — it falls into the source category, and its
LED receives the dedicated source indication (solid blue if available,
breathing-blue otherwise) at every lifecycle step. -/
theorem source_slot_dedicated_indication (registry : Finset DrivePath)
    (step : Step) (avail sel failed : List DrivePath) (st : LedState)
    (s : DrivePath) (hreg : s ∈ registry) (hsel : s ∉ sel)
    (hfail : s ∉ failed) :
    s ∉ unpluggedCat registry (some s) avail sel ∧
    s ∉ pluggedCat registry (some s) avail sel ∧
    s ∉ selectedOkSet sel failed ∧
    s ∉ selectedFailedSet failed ∧
    s ∈ sourceCat registry (some s) avail sel ∧
    updateLeds registry step (some s) avail sel failed st s
      = some (if s ∈ avail.toFinset then Indication.staticColor blue
              else Indication.animation AnimKind.breatheBlue) := by
  have hok : s ∉ selectedOkSet sel failed := by
    simp [selectedOkSet, List.mem_toFinset, hsel]
  have hsf : s ∉ selectedFailedSet failed := by
    simp [selectedFailedSet, List.mem_toFinset, hfail]
  by_cases hA : s ∈ avail.toFinset
  · have hpl : s ∈ pluggedSet avail sel := by
      simp [pluggedSet, Finset.mem_sdiff, List.mem_toFinset, hA, hsel]
    have hup : s ∉ unpluggedSet0 registry avail sel := by
      simp [unpluggedSet0, Finset.mem_sdiff, hpl]
    have hupc : s ∉ unpluggedCat registry (some s) avail sel := by
      simp [unpluggedCat, hup]
    have hplc : s ∉ pluggedCat registry (some s) avail sel := by
      simp [pluggedCat, hup, hpl]
    refine ⟨hupc, hplc, hok, hsf, ?_, ?_⟩
    · simp [sourceCat, hup, hpl]
    · rw [updateLeds_point, if_neg (fun h => hsf h.1),
        if_neg (fun h => hok h.1), if_neg (fun h => hplc h.1),
        if_neg (fun h => hupc h.1)]
      have hops : sourceOps registry (some s) avail sel
          = [({s}, Indication.staticColor blue)] := by
        simp [sourceOps, hup, hpl]
      have hw : lastWrite registry [({s}, Indication.staticColor blue)] s
          = some (Indication.staticColor blue) := by
        show (if s ∈ ({s} : Finset DrivePath) ∧ s ∈ registry
            then some (Indication.staticColor blue) else none) = _
        rw [if_pos ⟨Finset.mem_singleton_self s, hreg⟩]
      rw [hops, hw, if_pos hA]
      rfl
  · have hpl : s ∉ pluggedSet avail sel := by
      simp [pluggedSet, Finset.mem_sdiff, List.mem_toFinset, hA]
    have hup : s ∈ unpluggedSet0 registry avail sel := by
      simp [unpluggedSet0, Finset.mem_sdiff, hreg, hpl]
    have hupc : s ∉ unpluggedCat registry (some s) avail sel := by
      simp [unpluggedCat, hup]
    have hplc : s ∉ pluggedCat registry (some s) avail sel := by
      simp [pluggedCat, hup, hpl]
    refine ⟨hupc, hplc, hok, hsf, ?_, ?_⟩
    · simp [sourceCat, hup]
    · rw [updateLeds_point, if_neg (fun h => hsf h.1),
        if_neg (fun h => hok h.1), if_neg (fun h => hplc h.1),
        if_neg (fun h => hupc h.1)]
      have hops : sourceOps registry (some s) avail sel
          = [({s}, Indication.animation AnimKind.breatheBlue)] := by
        simp [sourceOps, hup]
      have hw : lastWrite registry
            [({s}, Indication.animation AnimKind.breatheBlue)] s
          = some (Indication.animation AnimKind.breatheBlue) := by
        show (if s ∈ ({s} : Finset DrivePath) ∧ s ∈ registry
            then some (Indication.animation AnimKind.breatheBlue) else none)
          = _
        rw [if_pos ⟨Finset.mem_singleton_self s, hreg⟩]
      rw [hops, hw, if_neg hA]
      rfl

/-- Witness for C2 (amended) at a concrete registered, unavailable,
unselected source path: it gets the breathing-blue animation. -/
theorem source_slot_dedicated_indication_witness :
    ("s" ∈ ({"s"} : Finset DrivePath) ∧ "s" ∉ ([] : List DrivePath) ∧
      "s" ∉ ([] : List DrivePath)) ∧
    ("s" ∉ unpluggedCat {"s"} (some "s") [] [] ∧
      "s" ∉ pluggedCat {"s"} (some "s") [] [] ∧
      "s" ∉ selectedOkSet [] [] ∧
      "s" ∉ selectedFailedSet [] ∧
      "s" ∈ sourceCat {"s"} (some "s") [] [] ∧
      updateLeds {"s"} Step.main (some "s") [] [] [] (fun _ => none) "s"
        = some (if "s" ∈ ([] : List DrivePath).toFinset
                then Indication.staticColor blue
                else Indication.animation AnimKind.breatheBlue)) :=
  ⟨⟨by decide, by decide, by decide⟩,
    source_slot_dedicated_indication {"s"} Step.main [] [] [] (fun _ => none)
      "s" (by decide) (by decide) (by decide)⟩

/-- Counterexample to C10 as stated: when the path in both `failedDrives`
and `availableDrives` (not in `selectedDrives`) is itself the designated
source, it does NOT remain in the plugged set — the source handling erases
it (its LED still ends red, via `selectedFailed`). -/
theorem source_erased_from_plugged_cex :
    "a" ∈ (["a"] : List DrivePath) ∧
    "a" ∉ ([] : List DrivePath) ∧
    "a" ∉ pluggedCat {"a"} (some "a") ["a"] [] ∧
    updateLeds {"a"} Step.flashing (some "a") ["a"] [] ["a"] (fun _ => none)
        "a"
      = some (Indication.staticColor red) := by decide

/-- Claim C10 (amended): for every drive path in `failedDrives` and
`availableDrives` but not in `selectedDrives`, provided it is not the
designated `sourceDrivePath`, the path remains in both the plugged and
selectedFailed categories, and (when registered) its LED ends with the
selectedFailed indication — solid red at step `flashing`, `verifying` or
`finish` — because that category is applied last. -/
theorem failed_available_unselected_red (registry : Finset DrivePath)
    (step : Step) (src : Option DrivePath)
    (avail sel failed : List DrivePath) (st : LedState) (d : DrivePath)
    (hfail : d ∈ failed) (havail : d ∈ avail) (hsel : d ∉ sel)
    (hsrc : src ≠ some d) :
    d ∈ pluggedCat registry src avail sel ∧
    d ∈ selectedFailedSet failed ∧
    (d ∈ registry →
      (step = Step.flashing ∨ step = Step.verifying ∨ step = Step.finish) →
      updateLeds registry step src avail sel failed st d
        = some (Indication.staticColor red)) := by
  have hpl : d ∈ pluggedSet avail sel := by
    simp [pluggedSet, Finset.mem_sdiff, List.mem_toFinset, havail, hsel]
  have hplc : d ∈ pluggedCat registry src avail sel := by
    cases src with
    | none => simpa [pluggedCat] using hpl
    | some s =>
      have hds : d ≠ s := fun h => hsrc (by rw [h])
      simp only [pluggedCat]
      split_ifs <;>
        first
          | exact hpl
          | exact Finset.mem_erase.mpr ⟨hds, hpl⟩
  have hsf : d ∈ selectedFailedSet failed := by
    simpa [selectedFailedSet] using hfail
  refine ⟨hplc, hsf, fun hreg hstep => ?_⟩
  rw [updateLeds_point, if_pos ⟨hsf, hreg⟩]
  rcases hstep with h | h | h <;> rw [h] <;> rfl

/-- Witness for C10 (amended) at a concrete non-source failed available
drive, step `flashing`. -/
theorem failed_available_unselected_red_witness :
    ("a" ∈ (["a"] : List DrivePath) ∧ "a" ∈ (["a"] : List DrivePath) ∧
      "a" ∉ ([] : List DrivePath) ∧ (none : Option DrivePath) ≠ some "a") ∧
    ("a" ∈ pluggedCat {"a"} none ["a"] [] ∧
      "a" ∈ selectedFailedSet ["a"] ∧
      ("a" ∈ ({"a"} : Finset DrivePath) →
        (Step.flashing = Step.flashing ∨ Step.flashing = Step.verifying ∨
          Step.flashing = Step.finish) →
        updateLeds {"a"} Step.flashing none ["a"] [] ["a"] (fun _ => none)
            "a"
          = some (Indication.staticColor red))) :=
  ⟨⟨by decide, by decide, by decide, by decide⟩,
    failed_available_unselected_red {"a"} Step.flashing none ["a"] [] ["a"]
      (fun _ => none) "a" (by decide) (by decide) (by decide) (by decide)⟩

/-- Counterexample to C1 as stated: a registered path that is available and
failed but not selected lands in two category sets at once (`plugged` and
`selectedFailed`), so the five categories are not a partition. -/
theorem category_partition_cex :
    "a" ∈ ({"a"} : Finset DrivePath) ∧
    "a" ∈ pluggedCat {"a"} none ["a"] [] ∧
    "a" ∈ selectedFailedSet ["a"] := by decide

/-- Claim C1 (amended): every registered drive path is assigned to at least
one of the five categories (none is omitted), the unplugged and plugged
categories are disjoint, the selectedOk and selectedFailed categories are
disjoint, and the source category is disjoint from unplugged and plugged;
but full pairwise disjointness fails (see the counterexample), so the five
categories are a cover, not a partition. -/
theorem registered_path_coverage (registry : Finset DrivePath)
    (src : Option DrivePath) (avail sel failed : List DrivePath)
    (d : DrivePath) (hreg : d ∈ registry) :
    (d ∈ sourceCat registry src avail sel ∨
      d ∈ unpluggedCat registry src avail sel ∨
      d ∈ pluggedCat registry src avail sel ∨
      d ∈ selectedOkSet sel failed ∨
      d ∈ selectedFailedSet failed) ∧
    ¬(d ∈ unpluggedCat registry src avail sel ∧
        d ∈ pluggedCat registry src avail sel) ∧
    ¬(d ∈ selectedOkSet sel failed ∧ d ∈ selectedFailedSet failed) ∧
    ¬(d ∈ sourceCat registry src avail sel ∧
        (d ∈ unpluggedCat registry src avail sel ∨
          d ∈ pluggedCat registry src avail sel)) := by
  cases src with
  | none =>
    by_cases hpl : d ∈ pluggedSet avail sel <;>
      simp_all [sourceCat, unpluggedCat, pluggedCat, unpluggedSet0,
        selectedOkSet, selectedFailedSet, Finset.mem_sdiff]
  | some s =>
    by_cases h1 : s ∈ unpluggedSet0 registry avail sel <;>
      by_cases h2 : s ∈ pluggedSet avail sel <;>
      by_cases hpl : d ∈ pluggedSet avail sel <;>
      by_cases hd : d = s <;>
      simp_all [sourceCat, unpluggedCat, pluggedCat, unpluggedSet0,
        selectedOkSet, selectedFailedSet, Finset.mem_sdiff,
        Finset.mem_erase]

/-- Witness for C1 (amended) at a concrete registered path. -/
theorem registered_path_coverage_witness :
    "a" ∈ ({"a"} : Finset DrivePath) ∧
    (("a" ∈ sourceCat {"a"} none ["b"] [] ∨
        "a" ∈ unpluggedCat {"a"} none ["b"] [] ∨
        "a" ∈ pluggedCat {"a"} none ["b"] [] ∨
        "a" ∈ selectedOkSet [] [] ∨
        "a" ∈ selectedFailedSet []) ∧
      ¬("a" ∈ unpluggedCat {"a"} none ["b"] [] ∧
          "a" ∈ pluggedCat {"a"} none ["b"] []) ∧
      ¬("a" ∈ selectedOkSet [] [] ∧ "a" ∈ selectedFailedSet []) ∧
      ¬("a" ∈ sourceCat {"a"} none ["b"] [] ∧
          ("a" ∈ unpluggedCat {"a"} none ["b"] [] ∨
            "a" ∈ pluggedCat {"a"} none ["b"] []))) :=
  ⟨by decide, registered_path_coverage {"a"} none ["b"] [] [] "a" (by decide)⟩

/-- Claim C8: when the flash-results object, its `results` field, or its
`errors` list is missing, the adapter derives an empty failed-drives list,
hence empty failed drive paths and an empty selectedFailed category,
instead of failing. -/
theorem missing_flash_results_empty_failed (s : AppState)
    (h : s.flashResults = none ∨
      (∃ fr, s.flashResults = some fr ∧ fr.results = none) ∨
      (∃ fr r, s.flashResults = some fr ∧ fr.results = some r ∧
        r.errors = none)) :
    failedDrives s = [] ∧ failedDrivesPaths s = [] ∧
    selectedFailedSet (failedDrivesPaths s) = ∅ := by
  have hfd : failedDrives s = [] := by
    rcases h with h | ⟨fr, hfr, hres⟩ | ⟨fr, r, hfr, hres, herr⟩
    · simp [failedDrives, h]
    · simp [failedDrives, hfr, hres]
    · simp [failedDrives, hfr, hres, herr]
  have hpaths : failedDrivesPaths s = [] := by
    simp [failedDrivesPaths, hfd, getDrivesPaths]
  refine ⟨hfd, hpaths, ?_⟩
  simp [hpaths, selectedFailedSet]

/-- A concrete idle snapshot with no flash-results object. -/
def sampleState : AppState :=
  { isFlashing := false
    flashState := { flashing := 0 }
    lastAverageFlashingSpeed := none
    availableDrives := []
    selectionDevices := []
    flashResults := none }

/-- Witness for C8 at a concrete snapshot with `flashResults` missing. -/
theorem missing_flash_results_empty_failed_witness :
    (sampleState.flashResults = none ∨
      (∃ fr, sampleState.flashResults = some fr ∧ fr.results = none) ∨
      (∃ fr r, sampleState.flashResults = some fr ∧ fr.results = some r ∧
        r.errors = none)) ∧
    (failedDrives sampleState = [] ∧ failedDrivesPaths sampleState = [] ∧
      selectedFailedSet (failedDrivesPaths sampleState) = ∅) :=
  ⟨Or.inl rfl, missing_flash_results_empty_failed sampleState (Or.inl rfl)⟩
